import Mathlib

set_option linter.unusedVariables false

/-!
Verification of the Hawk React Native catcher core
(packages/core/src/index.ts): token-derived endpoint resolution,
event composition, context merging, the optional beforeSend hook,
and best-effort delivery, together with the process-wide facade.
-/

/-- Model of a JSON-serializable value carried in an event context. -/
inductive Json where
  | null : Json
  | bool (b : Bool) : Json
  | num (n : Int) : Json
  | str (s : String) : Json
  deriving Repr, DecidableEq

/-- An event context: a JavaScript object, modelled as an ordered list of
key-value pairs with string keys (JavaScript objects keep insertion order
and have no repeated keys). -/
abbrev EventContext := List (String × Json)

/-- A JavaScript Error value: a name, a message and an optional stack,
the stack modelled as the ordered frame strings the backtrace helper
would extract from it. -/
structure JsError where
  name : String
  message : String
  stack : Option (List String)
  deriving Repr, DecidableEq

/-- An affected-user identifier; the catcher passes it through unchanged. -/
structure AffectedUser where
  userId : String
  deriving Repr, DecidableEq

/-- The event payload of one error occurrence. Every field except the title
is optional because the global-handler path builds an envelope that carries
only a title. -/
structure EventData where
  title : String
  type : Option String
  backtrace : Option (List String)
  user : Option AffectedUser
  context : Option EventContext
  catcherVersion : Option String
  deriving Repr, DecidableEq

/-- The wire envelope: token, catcherType and payload. -/
structure HawkEvent where
  token : String
  catcherType : String
  payload : EventData
  deriving Repr, DecidableEq

/-- Modelled from the spec: the event module (packages/core/src/modules/event,
not present under src/) extracts the title of a raw error - the error display
message. -/
def eventGetTitle (error : JsError) : String :=
  error.message

/-- Modelled from the spec: the event module extracts the type of a raw
error - the error classification tag, its exception class name. -/
def eventGetType (error : JsError) : String :=
  error.name

/-- Modelled from the spec: the event module extracts the backtrace of a raw
error - the ordered frames of its stack, the empty sequence when the stack is
unavailable; it never fails. -/
def eventGetBacktrace (error : JsError) : List String :=
  error.stack.getD []

/-- The host JavaScript platform primitive used by getIntegrationId:
Buffer.from(token, base64).toString(utf-8), composed with JSON.parse and the
integrationId property read. These are runtime built-ins, external to the
repository, so they are a parameter of the model: an error result models a
thrown decode or parse error with its message, ok none models a parsed value
whose integrationId property is undefined, and ok (some s) a string-valued
integrationId property. -/
structure Platform where
  parseToken : String → Except String (Option String)

/-- JavaScript truthiness of an optional string: undefined and the empty
string are the falsy cases. -/
def strTruthy : Option String → Bool
  | none => false
  | some s => !(s == "")

/-- JavaScript a || b where a is an optional string and b a string. -/
def jsOrString (a : Option String) (b : String) : String :=
  if strTruthy a then a.getD "" else b

/-- Error.prototype.toString: name and message joined with a colon, either
alone when the other is empty. -/
def jsErrorToString (e : JsError) : String :=
  if e.name = "" then e.message
  else if e.message = "" then e.name
  else e.name ++ ": " ++ e.message

/-- getIntegrationId of the Catcher: decode the token through the platform
primitive and reject a missing or empty integrationId. -/
def getIntegrationId (p : Platform) (token : String) : Except String String :=
  match p.parseToken token with
  | .error e => .error e
  | .ok none => .error "Invalid integration token. There is no integration ID."
  | .ok (some integrationId) =>
    if integrationId = "" then
      .error "Invalid integration token. There is no integration ID."
    else
      .ok integrationId

/-- The recognized construction options (HawkNodeJSInitialSettings): token is
optional here because a caller may pass an object without one. -/
structure HawkNodeJSInitialSettings where
  token : Option String
  collectorEndpoint : Option String
  context : Option EventContext
  beforeSend : Option (EventData → EventData)
  disableGlobalErrorsHandling : Bool

/-- The constructor argument: a bare token string or a settings object. -/
inductive InitSettings where
  | str (token : String) : InitSettings
  | obj (settings : HawkNodeJSInitialSettings) : InitSettings

/-- The string shorthand is normalized to a settings object whose only
present field is the token. -/
def normalizeSettings : InitSettings → HawkNodeJSInitialSettings
  | .str token =>
    { token := some token
      collectorEndpoint := none
      context := none
      beforeSend := none
      disableGlobalErrorsHandling := false }
  | .obj s => s

/-- A constructed Catcher instance: its immutable configuration. -/
structure Catcher where
  type : String
  token : String
  collectorEndpoint : String
  context : Option EventContext
  beforeSend : Option (EventData → EventData)
  globalHandlersInstalled : Bool

/-- The message of the missing-token construction error. -/
def missingTokenMessage : String :=
  "Integration Token is missed. You can get it on https://hawk.so at Project Settings."

/-- The generic message of the invalid-token construction error. -/
def invalidTokenMessage : String :=
  "Invalid integration token"

/-- The Catcher constructor: normalize the string shorthand, reject a falsy
token with the missing-token error, then decode the integration id; any
failure inside the try block surfaces as the generic invalid-token error.
On success the collector endpoint is the override when truthy, else the
derived URL, and global handlers are installed unless disabled. -/
def Catcher.construct (p : Platform) (settings0 : InitSettings) :
    Except String Catcher :=
  let settings := normalizeSettings settings0
  if !(strTruthy settings.token) then
    .error missingTokenMessage
  else
    match getIntegrationId p (settings.token.getD "") with
    | .error _ => .error invalidTokenMessage
    | .ok integrationId =>
      .ok {
        type := "errors/react-native"
        token := settings.token.getD ""
        collectorEndpoint :=
          jsOrString settings.collectorEndpoint
            ("https://" ++ integrationId ++ ".k1.hawk.so/")
        context := settings.context
        beforeSend := settings.beforeSend
        globalHandlersInstalled := !settings.disableGlobalErrorsHandling }

/-- Catcher.getVersion: the package version constant. -/
def getVersion : String := "1.0.0"

/-- An HTTP response, opaque to the catcher. -/
structure Response where
  status : Nat
  deriving Repr, DecidableEq

/-- The transport outcome the environment supplies for one fetch call: a
resolved response or a rejected promise carrying an error. -/
inductive TransportOutcome where
  | ok (response : Response) : TransportOutcome
  | networkError (error : JsError) : TransportOutcome
  deriving Repr, DecidableEq

/-- Awaiting the fetch promise: a rejection surfaces as a thrown JsError
unless a catch handler intercepts it. -/
def jsFetch : TransportOutcome → Except JsError Response
  | .ok r => .ok r
  | .networkError e => .error e

/-- The single POST request the delivery channel issues. -/
structure HttpRequest where
  url : String
  method : String
  contentType : String
  body : HawkEvent
  deriving Repr, DecidableEq

/-- What one delivery attempt does: the request it issues, the console.error
lines it logs, and the response it observed, when any. -/
structure SendEffect where
  request : HttpRequest
  consoleErrorLogs : List String
  response : Option Response
  deriving Repr, DecidableEq

/-- Catcher.sendErrorFormatted: POST the serialized envelope to the collector
endpoint; a rejected fetch is caught by the catch handler, which logs the
failure to console.error and resolves with nothing. -/
def Catcher.sendErrorFormatted (c : Catcher) (outcome : TransportOutcome)
    (eventFormatted : HawkEvent) : Except JsError SendEffect :=
  let req : HttpRequest :=
    { url := c.collectorEndpoint
      method := "POST"
      contentType := "application/json"
      body := eventFormatted }
  match jsFetch outcome with
  | .ok r =>
    .ok { request := req, consoleErrorLogs := [], response := some r }
  | .error err =>
    .ok { request := req
          consoleErrorLogs :=
            ["[Hawk] Cannot send an event because of " ++ jsErrorToString err]
          response := none }

/-- Catcher.getUser: the user identifier passes through unchanged. -/
def getUser (user : Option AffectedUser) : Option AffectedUser :=
  user

/-- One JavaScript object property write: an existing key keeps its position
and gets the new value, a new key is appended after the others. -/
def setKey : EventContext → String → Json → EventContext
  | [], k, v => [(k, v)]
  | (k0, w) :: rest, k, v =>
    if k0 = k then (k, v) :: rest else (k0, w) :: setKey rest k v

/-- Object.assign(target, src): copy each own key of src onto target, left to
right, overwriting on key collision. -/
def objectAssign (target src : EventContext) : EventContext :=
  src.foldl (fun acc kv => setKey acc kv.1 kv.2) target

/-- Catcher.getContext, with this.context uncurried as the first argument:
start from a fresh empty object, assign the instance context into it when
present, then assign the call context into it when present. -/
def getContext (instanceContext : Option EventContext)
    (context : Option EventContext) : EventContext :=
  let contextMerged : EventContext := []
  let contextMerged :=
    match instanceContext with
    | some c => objectAssign contextMerged c
    | none => contextMerged
  match context with
  | some c => objectAssign contextMerged c
  | none => contextMerged

/-- Catcher.formatAndSend: build the full payload from the event module
getters, the passed-through user, the merged context and the version
constant; rewrite it through beforeSend when that hook is a function; wrap
it in the envelope and hand it to sendErrorFormatted. -/
def Catcher.formatAndSend (c : Catcher) (outcome : TransportOutcome)
    (err : JsError) (context : Option EventContext)
    (user : Option AffectedUser) : Except JsError SendEffect :=
  let payload : EventData :=
    { title := eventGetTitle err
      type := some (eventGetType err)
      backtrace := some (eventGetBacktrace err)
      user := getUser user
      context := some (getContext c.context context)
      catcherVersion := some getVersion }
  let payload :=
    match c.beforeSend with
    | some f => f payload
    | none => payload
  c.sendErrorFormatted outcome
    { token := c.token, catcherType := c.type, payload := payload }

/-- Catcher.send: compose and send a request to Hawk. -/
def Catcher.send (c : Catcher) (outcome : TransportOutcome) (error : JsError)
    (context : Option EventContext) (user : Option AffectedUser) :
    Except JsError SendEffect :=
  c.formatAndSend outcome error context user

/-- Catcher.test: a dummy error with the fixed test message, routed through
send. -/
def Catcher.test (c : Catcher) (outcome : TransportOutcome) :
    Except JsError SendEffect :=
  c.send outcome
    { name := "Error"
      message := "Hawk NodeJS Catcher test message"
      stack := none }
    none none

/-- The callback initGlobalHandlers installs through setJSExceptionHandler:
it builds a minimal envelope whose payload holds only the error name as
title and hands it to sendErrorFormatted; isFatal is only logged. -/
def Catcher.globalHandlerCallback (c : Catcher) (outcome : TransportOutcome)
    (error : JsError) (isFatal : Bool) : Except JsError SendEffect :=
  c.sendErrorFormatted outcome
    { token := c.token
      catcherType := c.type
      payload :=
        { title := error.name
          type := none
          backtrace := none
          user := none
          context := none
          catcherVersion := none } }

/-- HawkCatcher.init of the facade: construct a Catcher from the settings and
make it the process-wide singleton, replacing whatever instance was active; a
construction failure propagates and leaves the singleton untouched. -/
def HawkCatcher.init (p : Platform) (instanceBefore : Option Catcher)
    (settings : InitSettings) : Except String (Option Catcher) :=
  match Catcher.construct p settings with
  | .error e => .error e
  | .ok c => .ok (some c)

/-- HawkCatcher.send of the facade: nothing happens when no singleton has
been initialized; otherwise it delegates to the singleton. -/
def HawkCatcher.send (currentInstance : Option Catcher)
    (outcome : TransportOutcome) (error : JsError)
    (context : Option EventContext) (user : Option AffectedUser) :
    Except JsError (Option SendEffect) :=
  match currentInstance with
  | none => .ok none
  | some c => (c.send outcome error context user).map some

/-- The envelope a delivery attempt put on the wire, when it ran. -/
def bodyOf : Except JsError SendEffect → Option HawkEvent
  | .ok eff => some eff.request.body
  | .error _ => none

/-- The console.error lines a delivery attempt logged, when it ran. -/
def logsOf : Except JsError SendEffect → List String
  | .ok eff => eff.consoleErrorLogs
  | .error _ => []

/-- The URL a facade send posted to, when a request went out at all. -/
def facadeRequestUrl : Except JsError (Option SendEffect) → Option String
  | .ok (some eff) => some eff.request.url
  | .ok none => none
  | .error _ => none

/-- The collector endpoint of a construction result, when it succeeded. -/
def endpointOf : Except String Catcher → Option String
  | .ok c => some c.collectorEndpoint
  | .error _ => none

/-- First-match property lookup on a modelled JavaScript object. -/
def lookupJs : EventContext → String → Option Json
  | [], _ => none
  | (k0, v) :: rest, k => if k0 = k then some v else lookupJs rest k

/-- The keys of a modelled JavaScript object are pairwise distinct. -/
def nodupKeys (m : EventContext) : Prop :=
  (m.map Prod.fst).Nodup

instance (m : EventContext) : Decidable (nodupKeys m) := by
  unfold nodupKeys; infer_instance

/-- A delivery attempt ran to completion instead of throwing. -/
def returnsNormally : Except JsError SendEffect → Bool
  | .ok _ => true
  | .error _ => false

/-- A concrete platform for witnesses: tokenA decodes to integration id abc,
tokenB to xyz, tokenNoId to an object without an integrationId, tokenEmptyId
to an empty one; every other string fails to parse. -/
def testPlatform : Platform :=
  { parseToken := fun t =>
      if t = "tokenA" then Except.ok (some "abc")
      else if t = "tokenB" then Except.ok (some "xyz")
      else if t = "tokenNoId" then Except.ok none
      else if t = "tokenEmptyId" then Except.ok (some "")
      else Except.error "Unexpected token in JSON at position 0" }

/-- Settings carrying a valid token and an empty-string endpoint override. -/
def emptyOverrideSettings : HawkNodeJSInitialSettings :=
  { token := some "tokenA"
    collectorEndpoint := some ""
    context := none
    beforeSend := none
    disableGlobalErrorsHandling := false }

/-- Settings carrying a valid token and a nonempty endpoint override. -/
def overrideSettings : HawkNodeJSInitialSettings :=
  { token := some "tokenA"
    collectorEndpoint := some "https://collector.example.com/"
    context := none
    beforeSend := none
    disableGlobalErrorsHandling := false }

/-- Settings without a token field. -/
def noTokenSettings : HawkNodeJSInitialSettings :=
  { token := none
    collectorEndpoint := none
    context := none
    beforeSend := none
    disableGlobalErrorsHandling := false }

/-- Settings carrying an endpoint override together with an invalid token. -/
def overrideBadTokenSettings : HawkNodeJSInitialSettings :=
  { token := some "garbage"
    collectorEndpoint := some "https://collector.example.com/"
    context := none
    beforeSend := none
    disableGlobalErrorsHandling := false }

/-- The catcher HawkCatcher.init builds from the bare token tokenA. -/
def catcherA : Catcher :=
  { type := "errors/react-native"
    token := "tokenA"
    collectorEndpoint := "https://abc.k1.hawk.so/"
    context := none
    beforeSend := none
    globalHandlersInstalled := true }

/-- The catcher HawkCatcher.init builds from the bare token tokenB. -/
def catcherB : Catcher :=
  { type := "errors/react-native"
    token := "tokenB"
    collectorEndpoint := "https://xyz.k1.hawk.so/"
    context := none
    beforeSend := none
    globalHandlersInstalled := true }

theorem lookupJs_setKey_self (m : EventContext) (k : String) (v : Json) :
    lookupJs (setKey m k v) k = some v := by
  induction m with
  | nil => simp [setKey, lookupJs]
  | cons kv rest ih =>
    obtain ⟨k0, w⟩ := kv
    by_cases h : k0 = k
    · simp [setKey, h, lookupJs]
    · simp [setKey, h, lookupJs, ih]

theorem lookupJs_setKey_other (m : EventContext) (k k2 : String) (v : Json)
    (hne : k ≠ k2) : lookupJs (setKey m k v) k2 = lookupJs m k2 := by
  induction m with
  | nil => simp [setKey, lookupJs, hne]
  | cons kv rest ih =>
    obtain ⟨k0, w⟩ := kv
    by_cases h : k0 = k
    · subst h
      simp [setKey, lookupJs, hne]
    · simp [setKey, h, lookupJs, ih]

theorem lookupJs_eq_none (m : EventContext) (k : String)
    (h : k ∉ m.map Prod.fst) : lookupJs m k = none := by
  induction m with
  | nil => rfl
  | cons kv rest ih =>
    obtain ⟨k0, w⟩ := kv
    simp only [List.map_cons, List.mem_cons, not_or] at h
    have hne : k0 ≠ k := fun hh => h.1 hh.symm
    simp [lookupJs, hne, ih h.2]

theorem lookupJs_objectAssign (src : EventContext) (target : EventContext)
    (k : String) (h : nodupKeys src) :
    lookupJs (objectAssign target src) k
      = (lookupJs src k).or (lookupJs target k) := by
  induction src generalizing target with
  | nil => simp [objectAssign, lookupJs]
  | cons kv rest ih =>
    obtain ⟨k0, v0⟩ := kv
    have hnd := List.nodup_cons.mp
      (show (k0 :: rest.map Prod.fst).Nodup from h)
    have hrest : nodupKeys rest := hnd.2
    have hstep : objectAssign target ((k0, v0) :: rest)
        = objectAssign (setKey target k0 v0) rest := rfl
    rw [hstep, ih (setKey target k0 v0) hrest]
    by_cases hk : k0 = k
    · subst hk
      rw [lookupJs_eq_none rest k0 hnd.1]
      simp [lookupJs, lookupJs_setKey_self]
    · rw [lookupJs_setKey_other target k0 k v0 hk]
      simp [lookupJs, hk]

/-- The core construction failure on an undecodable token: shared between
the explicit invalid-token claim and the override-does-not-bypass claim. -/
theorem construct_invalid_of_bad_token (p : Platform) (s : InitSettings)
    (t : String) (htok : (normalizeSettings s).token = some t) (hne : t ≠ "")
    (hbad : (∃ e, p.parseToken t = Except.error e)
      ∨ p.parseToken t = Except.ok none
      ∨ p.parseToken t = Except.ok (some "")) :
    Catcher.construct p s = Except.error invalidTokenMessage := by
  have hbeq : (t == "") = false := beq_eq_false_iff_ne.mpr hne
  obtain ⟨msg, hmsg⟩ : ∃ msg, getIntegrationId p t = Except.error msg := by
    rcases hbad with ⟨e, he⟩ | hcase | hcase
    · exact ⟨e, by simp [getIntegrationId, he]⟩
    · exact ⟨"Invalid integration token. There is no integration ID.",
        by simp [getIntegrationId, hcase]⟩
    · exact ⟨"Invalid integration token. There is no integration ID.",
        by simp [getIntegrationId, hcase]⟩
  simp [Catcher.construct, htok, strTruthy, hbeq, hmsg]

/-- Claim C1: every send call on a constructed Catcher (and every test call)
returns normally regardless of the transport outcome; a network failure or
rejected delivery is caught and logged to console.error, never re-raised,
including when a beforeSend hook is configured (the quantification covers
every Catcher, so every hook). -/
theorem sendNeverThrows :
    ∀ (c : Catcher) (outcome : TransportOutcome) (error : JsError)
      (context : Option EventContext) (user : Option AffectedUser)
      (transportError : JsError),
      returnsNormally (c.send outcome error context user) = true
      ∧ returnsNormally (c.test outcome) = true
      ∧ logsOf (c.send (TransportOutcome.networkError transportError)
            error context user)
          = ["[Hawk] Cannot send an event because of "
              ++ jsErrorToString transportError] := by
  intro c outcome error context user transportError
  refine ⟨?_, ?_, ?_⟩
  · cases hb : c.beforeSend <;> cases outcome <;>
      simp [Catcher.send, Catcher.formatAndSend, Catcher.sendErrorFormatted,
        jsFetch, returnsNormally, hb]
  · cases hb : c.beforeSend <;> cases outcome <;>
      simp [Catcher.test, Catcher.send, Catcher.formatAndSend,
        Catcher.sendErrorFormatted, jsFetch, returnsNormally, hb]
  · cases hb : c.beforeSend <;>
      simp [Catcher.send, Catcher.formatAndSend, Catcher.sendErrorFormatted,
        jsFetch, logsOf, hb]

/-- Claim C5: the payload placed in the envelope put on the wire equals the
beforeSend hook applied to the composed payload when a hook is configured,
and the composed payload unchanged when no hook is configured. -/
theorem beforeSendRewritesPayload :
    ∀ (c : Catcher) (outcome : TransportOutcome) (error : JsError)
      (context : Option EventContext) (user : Option AffectedUser),
      bodyOf (c.send outcome error context user)
        = some
            { token := c.token
              catcherType := c.type
              payload :=
                (c.beforeSend.getD id)
                  { title := eventGetTitle error
                    type := some (eventGetType error)
                    backtrace := some (eventGetBacktrace error)
                    user := user
                    context := some (getContext c.context context)
                    catcherVersion := some getVersion } } := by
  intro c outcome error context user
  cases hb : c.beforeSend <;> cases outcome <;>
    simp [Catcher.send, Catcher.formatAndSend, Catcher.sendErrorFormatted,
      jsFetch, bodyOf, getUser, hb]

/-- Claim C6: for every error and either value of isFatal, the installed
global-handler callback sends an envelope whose payload holds only a title
equal to the error name: type, backtrace, user, context and catcherVersion
are all absent, and the result does not depend on isFatal. -/
theorem globalHandlerMinimalEnvelope :
    ∀ (c : Catcher) (outcome : TransportOutcome) (error : JsError)
      (isFatal : Bool),
      bodyOf (c.globalHandlerCallback outcome error isFatal)
        = some
            { token := c.token
              catcherType := c.type
              payload :=
                { title := error.name
                  type := none
                  backtrace := none
                  user := none
                  context := none
                  catcherVersion := none } }
      ∧ c.globalHandlerCallback outcome error isFatal
          = c.globalHandlerCallback outcome error (!isFatal) := by
  intro c outcome error isFatal
  cases outcome <;> exact ⟨rfl, rfl⟩

/-- Claim C7: the facade send before any init is a no-op: with no singleton
initialized it issues no request, raises nothing and returns normally. -/
theorem facadeSendBeforeInitNoop :
    ∀ (outcome : TransportOutcome) (error : JsError)
      (context : Option EventContext) (user : Option AffectedUser),
      HawkCatcher.send none outcome error context user = Except.ok none
      ∧ facadeRequestUrl (HawkCatcher.send none outcome error context user)
          = none := by
  intro outcome error context user
  exact ⟨rfl, rfl⟩

/-- Claim C4: the context merge starts from a fresh empty object, overlays
the default context and then the call context, the call-time value winning
on key collision (stated through property lookup for every pair of contexts
with the distinct keys a JavaScript object guarantees); merging the two
absent contexts yields the empty object, and the two-literal example merges
as the spec shows. Inputs are values the pure merge cannot mutate. -/
theorem contextMergeCorrect (d c : EventContext) (hd : nodupKeys d)
    (hc : nodupKeys c) :
    (∀ k, lookupJs (getContext (some d) (some c)) k
        = (lookupJs c k).or (lookupJs d k))
    ∧ getContext none none = ([] : EventContext)
    ∧ getContext (some [("a", Json.num 1), ("b", Json.num 2)])
        (some [("b", Json.num 3), ("c", Json.num 4)])
        = [("a", Json.num 1), ("b", Json.num 3), ("c", Json.num 4)] := by
  refine ⟨fun k => ?_, rfl, by decide⟩
  show lookupJs (objectAssign (objectAssign [] d) c) k = _
  rw [lookupJs_objectAssign c (objectAssign [] d) k hc,
    lookupJs_objectAssign d [] k hd]
  simp [lookupJs]

/-- Witness for C4 at the concrete contexts of the spec example. -/
theorem contextMergeCorrectWitness :
    nodupKeys [("a", Json.num 1), ("b", Json.num 2)]
    ∧ nodupKeys [("b", Json.num 3), ("c", Json.num 4)]
    ∧ lookupJs
        (getContext (some [("a", Json.num 1), ("b", Json.num 2)])
          (some [("b", Json.num 3), ("c", Json.num 4)])) "b"
        = (lookupJs [("b", Json.num 3), ("c", Json.num 4)] "b").or
            (lookupJs [("a", Json.num 1), ("b", Json.num 2)] "b") :=
  ⟨by decide, by decide,
    (contextMergeCorrect [("a", Json.num 1), ("b", Json.num 2)]
      [("b", Json.num 3), ("c", Json.num 4)] (by decide) (by decide)).1 "b"⟩

/-- Claim C3: for every token whose platform decode throws, or whose decoded
value lacks a non-empty integrationId, construction and init fail with the
generic invalid-token message (the underlying decode error is not re-exposed)
and no collector endpoint is resolved. -/
theorem invalidTokenRejected (p : Platform) (s : InitSettings) (t : String)
    (htok : (normalizeSettings s).token = some t) (hne : t ≠ "")
    (hbad : (∃ e, p.parseToken t = Except.error e)
      ∨ p.parseToken t = Except.ok none
      ∨ p.parseToken t = Except.ok (some "")) :
    Catcher.construct p s = Except.error invalidTokenMessage
    ∧ endpointOf (Catcher.construct p s) = none
    ∧ ∀ st0 : Option Catcher,
        HawkCatcher.init p st0 s = Except.error invalidTokenMessage := by
  have hcon := construct_invalid_of_bad_token p s t htok hne hbad
  exact ⟨hcon, by simp [endpointOf, hcon],
    fun st0 => by simp [HawkCatcher.init, hcon]⟩

/-- Witness for C3 at a token the concrete platform cannot parse. -/
theorem invalidTokenRejectedWitness :
    (normalizeSettings (InitSettings.str "garbage")).token = some "garbage"
    ∧ Catcher.construct testPlatform (InitSettings.str "garbage")
        = Except.error invalidTokenMessage :=
  ⟨rfl,
    (invalidTokenRejected testPlatform (InitSettings.str "garbage") "garbage"
      rfl (by decide)
      (Or.inl ⟨"Unexpected token in JSON at position 0", rfl⟩)).1⟩

/-- Claim C8: constructing with no token at all fails with the missing-token
error, and init surfaces it to its caller. -/
theorem missingTokenRejected (p : Platform) (s : HawkNodeJSInitialSettings)
    (hnotok : s.token = none) :
    Catcher.construct p (InitSettings.obj s) = Except.error missingTokenMessage
    ∧ ∀ st0 : Option Catcher,
        HawkCatcher.init p st0 (InitSettings.obj s)
          = Except.error missingTokenMessage := by
  have hcon : Catcher.construct p (InitSettings.obj s)
      = Except.error missingTokenMessage := by
    simp [Catcher.construct, normalizeSettings, hnotok, strTruthy]
  exact ⟨hcon, fun st0 => by simp [HawkCatcher.init, hcon]⟩

/-- Witness for C8 at the concrete settings object without a token. -/
theorem missingTokenRejectedWitness :
    noTokenSettings.token = none
    ∧ Catcher.construct testPlatform (InitSettings.obj noTokenSettings)
        = Except.error missingTokenMessage :=
  ⟨rfl, (missingTokenRejected testPlatform noTokenSettings rfl).1⟩

/-- Claim C10: an explicit collectorEndpoint override does not bypass token
validation: with an override supplied and a token the platform cannot decode
to a non-empty integrationId, construction still fails with the generic
invalid-token error instead of succeeding with the override endpoint. -/
theorem overrideDoesNotBypassValidation (p : Platform)
    (s : HawkNodeJSInitialSettings) (url t : String)
    (hov : s.collectorEndpoint = some url) (htok : s.token = some t)
    (hne : t ≠ "")
    (hbad : (∃ e, p.parseToken t = Except.error e)
      ∨ p.parseToken t = Except.ok none
      ∨ p.parseToken t = Except.ok (some "")) :
    Catcher.construct p (InitSettings.obj s) = Except.error invalidTokenMessage
    ∧ endpointOf (Catcher.construct p (InitSettings.obj s)) ≠ some url := by
  have hcon := construct_invalid_of_bad_token p (InitSettings.obj s) t htok
    hne hbad
  refine ⟨hcon, ?_⟩
  simp [endpointOf, hcon]

/-- Witness for C10 at concrete settings with an override and a bad token. -/
theorem overrideDoesNotBypassValidationWitness :
    overrideBadTokenSettings.collectorEndpoint
        = some "https://collector.example.com/"
    ∧ overrideBadTokenSettings.token = some "garbage"
    ∧ Catcher.construct testPlatform (InitSettings.obj overrideBadTokenSettings)
        = Except.error invalidTokenMessage :=
  ⟨rfl, rfl,
    (overrideDoesNotBypassValidation testPlatform overrideBadTokenSettings
      "https://collector.example.com/" "garbage" rfl rfl (by decide)
      (Or.inl ⟨"Unexpected token in JSON at position 0", rfl⟩)).1⟩

/-- Claim C2 as amended: for every token the platform decodes to a non-empty
integrationId, construction succeeds and resolves the collector endpoint to
the explicit override when a non-empty one is supplied; an empty-string
override is falsy in JavaScript and is treated like an absent one, so in
that case, as with no override, the endpoint is the derived URL
https://{integrationId}.k1.hawk.so/. -/
theorem endpointResolution (p : Platform) (s : InitSettings)
    (t integrationId : String)
    (htok : (normalizeSettings s).token = some t) (hne : t ≠ "")
    (hdec : p.parseToken t = Except.ok (some integrationId))
    (hid : integrationId ≠ "") :
    ∃ c, Catcher.construct p s = Except.ok c
      ∧ c.collectorEndpoint =
          match (normalizeSettings s).collectorEndpoint with
          | some e =>
            if e = "" then "https://" ++ integrationId ++ ".k1.hawk.so/" else e
          | none => "https://" ++ integrationId ++ ".k1.hawk.so/" := by
  have hbeq : (t == "") = false := beq_eq_false_iff_ne.mpr hne
  have hgid : getIntegrationId p t = Except.ok integrationId := by
    simp [getIntegrationId, hdec, hid]
  have hcon : Catcher.construct p s = Except.ok
      { type := "errors/react-native"
        token := t
        collectorEndpoint :=
          jsOrString (normalizeSettings s).collectorEndpoint
            ("https://" ++ integrationId ++ ".k1.hawk.so/")
        context := (normalizeSettings s).context
        beforeSend := (normalizeSettings s).beforeSend
        globalHandlersInstalled :=
          !(normalizeSettings s).disableGlobalErrorsHandling } := by
    simp [Catcher.construct, htok, strTruthy, hbeq, hgid]
  refine ⟨_, hcon, ?_⟩
  show jsOrString (normalizeSettings s).collectorEndpoint
      ("https://" ++ integrationId ++ ".k1.hawk.so/") = _
  cases hce : (normalizeSettings s).collectorEndpoint with
  | none => simp [jsOrString, strTruthy]
  | some e =>
    by_cases he : e = "" <;>
      simp [jsOrString, strTruthy, he, beq_eq_false_iff_ne]

/-- Counterexample to C2 as frozen: a valid token together with a supplied
collectorEndpoint override that is the empty string; construction succeeds
yet resolves the derived endpoint, which differs from the supplied override,
because the source guards the override with JavaScript truthiness. -/
theorem endpointResolutionCounterexample :
    testPlatform.parseToken "tokenA" = Except.ok (some "abc")
    ∧ emptyOverrideSettings.collectorEndpoint = some ""
    ∧ endpointOf
        (Catcher.construct testPlatform (InitSettings.obj emptyOverrideSettings))
        = some "https://abc.k1.hawk.so/"
    ∧ some "https://abc.k1.hawk.so/" ≠ emptyOverrideSettings.collectorEndpoint :=
  ⟨rfl, rfl, rfl, by decide⟩

/-- Witness for the amended C2 at a concrete valid token with a nonempty
override. -/
theorem endpointResolutionWitness :
    (normalizeSettings (InitSettings.obj overrideSettings)).token
        = some "tokenA"
    ∧ testPlatform.parseToken "tokenA" = Except.ok (some "abc")
    ∧ ∃ c, Catcher.construct testPlatform (InitSettings.obj overrideSettings)
          = Except.ok c
        ∧ c.collectorEndpoint =
            match
              (normalizeSettings (InitSettings.obj overrideSettings)).collectorEndpoint
            with
            | some e =>
              if e = "" then "https://" ++ "abc" ++ ".k1.hawk.so/" else e
            | none => "https://" ++ "abc" ++ ".k1.hawk.so/" :=
  ⟨rfl, rfl,
    endpointResolution testPlatform (InitSettings.obj overrideSettings)
      "tokenA" "abc" rfl (by decide) rfl (by decide)⟩

/-- Claim C9: a second init call silently replaces the process-wide singleton
with the Catcher constructed from the second settings alone, and every
subsequent facade send posts to that second collector endpoint. -/
theorem secondInitReplacesSingleton (p : Platform)
    (st0 st1 st2 : Option Catcher) (s1 s2 : InitSettings) (c : Catcher)
    (h1 : HawkCatcher.init p st0 s1 = Except.ok st1)
    (h2 : HawkCatcher.init p st1 s2 = Except.ok st2)
    (hc : Catcher.construct p s2 = Except.ok c) :
    st2 = some c
    ∧ ∀ (outcome : TransportOutcome) (error : JsError)
        (context : Option EventContext) (user : Option AffectedUser),
        facadeRequestUrl (HawkCatcher.send st2 outcome error context user)
          = some c.collectorEndpoint := by
  have hst : st2 = some c := by
    unfold HawkCatcher.init at h2
    rw [hc] at h2
    simpa using h2.symm
  subst hst
  refine ⟨rfl, fun outcome error context user => ?_⟩
  cases hb : c.beforeSend <;> cases outcome <;>
    simp [HawkCatcher.send, Catcher.send, Catcher.formatAndSend,
      Catcher.sendErrorFormatted, jsFetch, facadeRequestUrl, Except.map, hb]

/-- Witness for C9: two sequential init calls with the two concrete tokens;
the singleton afterwards is the tokenB catcher and facade sends post to the
tokenB endpoint. -/
theorem secondInitReplacesSingletonWitness :
    HawkCatcher.init testPlatform none (InitSettings.str "tokenA")
        = Except.ok (some catcherA)
    ∧ HawkCatcher.init testPlatform (some catcherA) (InitSettings.str "tokenB")
        = Except.ok (some catcherB)
    ∧ Catcher.construct testPlatform (InitSettings.str "tokenB")
        = Except.ok catcherB
    ∧ (some catcherB = some catcherB
       ∧ ∀ (outcome : TransportOutcome) (error : JsError)
           (context : Option EventContext) (user : Option AffectedUser),
           facadeRequestUrl
               (HawkCatcher.send (some catcherB) outcome error context user)
             = some catcherB.collectorEndpoint) := by
  have h1 : HawkCatcher.init testPlatform none (InitSettings.str "tokenA")
      = Except.ok (some catcherA) := rfl
  have h2 : HawkCatcher.init testPlatform (some catcherA)
      (InitSettings.str "tokenB") = Except.ok (some catcherB) := rfl
  have hc : Catcher.construct testPlatform (InitSettings.str "tokenB")
      = Except.ok catcherB := rfl
  exact ⟨h1, h2, hc,
    secondInitReplacesSingleton testPlatform none (some catcherA)
      (some catcherB) (InitSettings.str "tokenA") (InitSettings.str "tokenB")
      catcherB h1 h2 hc⟩
